import Mathlib

/-!
Verification of the `MelonDSAndroidIRHandler` JNI bridge
(`src/app/src/main/cpp/MelonDSAndroidIRHandler.cpp` / `.h`).

The class forwards eleven IR transport operations from the native emulator
core to a host-managed `IRManager` object across the JNI boundary.  Each
operation follows the same pipeline: check the two stored pointers for null,
obtain the current thread's `JNIEnv`, (for reads/writes) allocate a transfer
byte array, resolve the `IRManager` class via `GetObjectClass`, resolve the
target method via `GetMethodID`, invoke the host method, and release local
references via `DeleteLocalRef`.

The embedding models the JNI world as an oracle: `JNIEnv` records which of
the environment's resolution steps succeed, and `IRManagerHost` records what
each host method returns.  Every operation returns its C++ return value
together with a trace of the boundary-crossing events it performed, in
program order, so that claims about host invocation, marshalling, and local
reference balance are statable.
-/

namespace IRBridge

/-- The eleven host methods looked up via `GetMethodID` (one per operation;
the literal Java method names in the C++ source map one-to-one onto these
constructors). -/
inductive HostMethod where
  | openSerial
  | closeSerial
  | writeSerial
  | readSerial
  | isSerialOpen
  | openTCP
  | closeTCP
  | writeTCP
  | readTCP
  | isTCPOpen
  | hasDataAvailable
deriving DecidableEq, Repr

/-- The two kinds of transient JNI local references an operation can create:
the `jclass` from `GetObjectClass` and the `jbyteArray` from `NewByteArray`.
Each operation creates at most one of each. -/
inductive LocalRefKind where
  | classRef
  | arrayRef
deriving DecidableEq, Repr

/-- Boundary-crossing events performed by an operation, in program order. -/
inductive JNIEvent where
  /-- `GetObjectClass` returned a non-null local class reference. -/
  | allocClass
  /-- `NewByteArray(len)` returned a non-null local array reference. -/
  | allocArray (len : Int)
  /-- `DeleteLocalRef` on the given kind of local reference. -/
  | deleteLocalRef (r : LocalRefKind)
  /-- `SetByteArrayRegion`: copy-in of the given bytes into the transfer
  array. -/
  | setByteArrayRegion (data : List Int)
  /-- `GetByteArrayRegion`: copy-out of `n` bytes from the transfer array
  into the caller's buffer at offset 0. -/
  | getByteArrayRegion (n : Int)
  /-- A `Call*Method` invocation of the host object's method. -/
  | callHost (m : HostMethod)
deriving DecidableEq, Repr

/-- Does the event allocate a local reference of kind `r`? -/
def isAllocEvent : LocalRefKind → JNIEvent → Bool
  | .classRef, .allocClass => true
  | .arrayRef, .allocArray _ => true
  | _, _ => false

/-- Does the event release a local reference of kind `r`? -/
def isDeleteEvent : LocalRefKind → JNIEvent → Bool
  | .classRef, .deleteLocalRef .classRef => true
  | .arrayRef, .deleteLocalRef .arrayRef => true
  | _, _ => false

/-- Is the event an invocation of a host method? -/
def isHostCallEvent : JNIEvent → Bool
  | .callHost _ => true
  | _ => false

/-- Is the event a byte-buffer transfer across the boundary
(`SetByteArrayRegion` copy-in or `GetByteArrayRegion` copy-out)? -/
def isMarshalEvent : JNIEvent → Bool
  | .setByteArrayRegion _ => true
  | .getByteArrayRegion _ => true
  | _ => false

/-- Number of local references of kind `r` allocated in the trace. -/
def countAlloc (r : LocalRefKind) (t : List JNIEvent) : Nat :=
  t.countP (fun e => isAllocEvent r e)

/-- Number of local references of kind `r` released in the trace. -/
def countDelete (r : LocalRefKind) (t : List JNIEvent) : Nat :=
  t.countP (fun e => isDeleteEvent r e)

/-- Number of host method invocations in the trace. -/
def countHostCalls (t : List JNIEvent) : Nat :=
  t.countP (fun e => isHostCallEvent e)

/-- Number of byte-buffer transfers in the trace. -/
def countMarshal (t : List JNIEvent) : Nat :=
  t.countP (fun e => isMarshalEvent e)

/-- The host-managed `IRManager` peripheral object: what each of its methods
returns when invoked.  Write methods see the transfer array's contents and
the length argument; read methods see the `maxLength` argument and return
the `bytesRead` count together with the transfer array's contents after the
call (the bytes the host placed in the Java array). -/
structure IRManagerHost where
  openSerialResult : Bool
  isSerialOpenResult : Bool
  openTCPResult : Bool
  isTCPOpenResult : Bool
  hasDataAvailableResult : Bool
  writeSerialResult : List Int → Int → Int
  writeTCPResult : List Int → Int → Int
  readSerialResult : Int → Int × List Int
  readTCPResult : Int → Int × List Int

/-- Oracle for the `JNIEnv` obtained for the current thread: which of its
resolution and allocation calls succeed (a `false`/`none` models the JNI
call returning null). -/
structure JNIEnv where
  getObjectClassOk : Bool
  newByteArrayOk : Bool
  getMethodIDOk : HostMethod → Bool

/-- The `JniEnvHandler`: its only use is `getCurrentThreadEnv`, which
returns the current thread's environment or null. -/
structure JniEnvHandler where
  getCurrentThreadEnv : Option JNIEnv

/-- The bridge object: the two pointers stored by the constructor
(`none` models a null pointer). -/
structure MelonDSAndroidIRHandler where
  jniEnvHandler : Option JniEnvHandler
  irManager : Option IRManagerHost

/-- The C++ constructor: the member initializer list stores both pointers
unconditionally, before the null check (which only logs an error and
returns). -/
def makeHandler (j : Option JniEnvHandler) (m : Option IRManagerHost) :
    MelonDSAndroidIRHandler :=
  { jniEnvHandler := j, irManager := m }

/-- `SetByteArrayRegion(arr, 0, n, data)`: the `n` bytes copied in from the
caller's data. -/
def takeInt (n : Int) (l : List Int) : List Int :=
  l.take n.toNat

/-- A Java byte array has a fixed length: pad or truncate the host-written
contents to the array's allocated length (`NewByteArray` zero-fills). -/
def fitToLength (n : Nat) (l : List Int) : List Int :=
  l.take n ++ List.replicate (n - l.length) 0

/-- `MelonDSAndroidIRHandler::openSerial` (lines 19–50): null check, get
env, `GetObjectClass`, `GetMethodID("openSerial","()Z")`,
`CallBooleanMethod`, `DeleteLocalRef`. -/
def MelonDSAndroidIRHandler.openSerial (h : MelonDSAndroidIRHandler) :
    Bool × List JNIEvent :=
  match h.jniEnvHandler, h.irManager with
  | some envHandler, some manager =>
    match envHandler.getCurrentThreadEnv with
    | some env =>
      if env.getObjectClassOk then
        if env.getMethodIDOk .openSerial then
          (manager.openSerialResult,
            [.allocClass, .callHost .openSerial, .deleteLocalRef .classRef])
        else
          (false, [.allocClass, .deleteLocalRef .classRef])
      else
        (false, [])
    | none => (false, [])
  | _, _ => (false, [])

/-- `MelonDSAndroidIRHandler::closeSerial` (lines 52–74): void return; every
failure exits silently.  The result is only the event trace. -/
def MelonDSAndroidIRHandler.closeSerial (h : MelonDSAndroidIRHandler) :
    List JNIEvent :=
  match h.jniEnvHandler, h.irManager with
  | some envHandler, some _manager =>
    match envHandler.getCurrentThreadEnv with
    | some env =>
      if env.getObjectClassOk then
        if env.getMethodIDOk .closeSerial then
          [.allocClass, .callHost .closeSerial, .deleteLocalRef .classRef]
        else
          [.allocClass, .deleteLocalRef .classRef]
      else
        []
    | none => []
  | _, _ => []

/-- `MelonDSAndroidIRHandler::writeSerial` (lines 76–112): null check, get
env, `NewByteArray(length)`, `SetByteArrayRegion` (copy-in),
`GetObjectClass`, `GetMethodID("writeSerial","([BI)I")`, `CallIntMethod`,
release both local references.  Returns -1 on any resolution failure. -/
def MelonDSAndroidIRHandler.writeSerial (h : MelonDSAndroidIRHandler)
    (data : List Int) (length : Int) : Int × List JNIEvent :=
  match h.jniEnvHandler, h.irManager with
  | some envHandler, some manager =>
    match envHandler.getCurrentThreadEnv with
    | some env =>
      if env.newByteArrayOk then
        let javaData := takeInt length data
        if env.getObjectClassOk then
          if env.getMethodIDOk .writeSerial then
            (manager.writeSerialResult javaData length,
              [.allocArray length, .setByteArrayRegion javaData, .allocClass,
                .callHost .writeSerial, .deleteLocalRef .classRef,
                .deleteLocalRef .arrayRef])
          else
            (-1, [.allocArray length, .setByteArrayRegion javaData,
              .allocClass, .deleteLocalRef .classRef,
              .deleteLocalRef .arrayRef])
        else
          (-1, [.allocArray length, .setByteArrayRegion javaData,
            .deleteLocalRef .arrayRef])
      else
        (-1, [])
    | none => (-1, [])
  | _, _ => (-1, [])

/-- `MelonDSAndroidIRHandler::readSerial` (lines 114–152): null check, get
env, `NewByteArray(maxLength)`, `GetObjectClass`,
`GetMethodID("readSerial","([BI)I")`, `CallIntMethod`; if the returned
`bytesRead > 0`, `GetByteArrayRegion` copies that many bytes into the
caller's buffer at offset 0; release both local references; return
`bytesRead`.  Returns 0 on any resolution failure.  The result is
`(return value, caller's buffer after the call, trace)`. -/
def MelonDSAndroidIRHandler.readSerial (h : MelonDSAndroidIRHandler)
    (buffer : List Int) (maxLength : Int) : Int × List Int × List JNIEvent :=
  match h.jniEnvHandler, h.irManager with
  | some envHandler, some manager =>
    match envHandler.getCurrentThreadEnv with
    | some env =>
      if env.newByteArrayOk then
        if env.getObjectClassOk then
          if env.getMethodIDOk .readSerial then
            let res := manager.readSerialResult maxLength
            let bytesRead := res.1
            let javaBuffer := fitToLength maxLength.toNat res.2
            if bytesRead > 0 then
              (bytesRead,
                javaBuffer.take bytesRead.toNat ++ buffer.drop bytesRead.toNat,
                [.allocArray maxLength, .allocClass, .callHost .readSerial,
                  .getByteArrayRegion bytesRead, .deleteLocalRef .classRef,
                  .deleteLocalRef .arrayRef])
            else
              (bytesRead, buffer,
                [.allocArray maxLength, .allocClass, .callHost .readSerial,
                  .deleteLocalRef .classRef, .deleteLocalRef .arrayRef])
          else
            (0, buffer, [.allocArray maxLength, .allocClass,
              .deleteLocalRef .classRef, .deleteLocalRef .arrayRef])
        else
          (0, buffer, [.allocArray maxLength, .deleteLocalRef .arrayRef])
      else
        (0, buffer, [])
    | none => (0, buffer, [])
  | _, _ => (0, buffer, [])

/-- `MelonDSAndroidIRHandler::isSerialOpen` (lines 154–176). -/
def MelonDSAndroidIRHandler.isSerialOpen (h : MelonDSAndroidIRHandler) :
    Bool × List JNIEvent :=
  match h.jniEnvHandler, h.irManager with
  | some envHandler, some manager =>
    match envHandler.getCurrentThreadEnv with
    | some env =>
      if env.getObjectClassOk then
        if env.getMethodIDOk .isSerialOpen then
          (manager.isSerialOpenResult,
            [.allocClass, .callHost .isSerialOpen, .deleteLocalRef .classRef])
        else
          (false, [.allocClass, .deleteLocalRef .classRef])
      else
        (false, [])
    | none => (false, [])
  | _, _ => (false, [])

/-- `MelonDSAndroidIRHandler::openTCP` (lines 178–209). -/
def MelonDSAndroidIRHandler.openTCP (h : MelonDSAndroidIRHandler) :
    Bool × List JNIEvent :=
  match h.jniEnvHandler, h.irManager with
  | some envHandler, some manager =>
    match envHandler.getCurrentThreadEnv with
    | some env =>
      if env.getObjectClassOk then
        if env.getMethodIDOk .openTCP then
          (manager.openTCPResult,
            [.allocClass, .callHost .openTCP, .deleteLocalRef .classRef])
        else
          (false, [.allocClass, .deleteLocalRef .classRef])
      else
        (false, [])
    | none => (false, [])
  | _, _ => (false, [])

/-- `MelonDSAndroidIRHandler::closeTCP` (lines 211–234): void return; every
failure exits silently. -/
def MelonDSAndroidIRHandler.closeTCP (h : MelonDSAndroidIRHandler) :
    List JNIEvent :=
  match h.jniEnvHandler, h.irManager with
  | some envHandler, some _manager =>
    match envHandler.getCurrentThreadEnv with
    | some env =>
      if env.getObjectClassOk then
        if env.getMethodIDOk .closeTCP then
          [.allocClass, .callHost .closeTCP, .deleteLocalRef .classRef]
        else
          [.allocClass, .deleteLocalRef .classRef]
      else
        []
    | none => []
  | _, _ => []

/-- `MelonDSAndroidIRHandler::writeTCP` (lines 236–272): same pipeline as
`writeSerial` with method `writeTCP`. -/
def MelonDSAndroidIRHandler.writeTCP (h : MelonDSAndroidIRHandler)
    (data : List Int) (length : Int) : Int × List JNIEvent :=
  match h.jniEnvHandler, h.irManager with
  | some envHandler, some manager =>
    match envHandler.getCurrentThreadEnv with
    | some env =>
      if env.newByteArrayOk then
        let javaData := takeInt length data
        if env.getObjectClassOk then
          if env.getMethodIDOk .writeTCP then
            (manager.writeTCPResult javaData length,
              [.allocArray length, .setByteArrayRegion javaData, .allocClass,
                .callHost .writeTCP, .deleteLocalRef .classRef,
                .deleteLocalRef .arrayRef])
          else
            (-1, [.allocArray length, .setByteArrayRegion javaData,
              .allocClass, .deleteLocalRef .classRef,
              .deleteLocalRef .arrayRef])
        else
          (-1, [.allocArray length, .setByteArrayRegion javaData,
            .deleteLocalRef .arrayRef])
      else
        (-1, [])
    | none => (-1, [])
  | _, _ => (-1, [])

/-- `MelonDSAndroidIRHandler::readTCP` (lines 274–312): same pipeline as
`readSerial` with method `readTCP`. -/
def MelonDSAndroidIRHandler.readTCP (h : MelonDSAndroidIRHandler)
    (buffer : List Int) (maxLength : Int) : Int × List Int × List JNIEvent :=
  match h.jniEnvHandler, h.irManager with
  | some envHandler, some manager =>
    match envHandler.getCurrentThreadEnv with
    | some env =>
      if env.newByteArrayOk then
        if env.getObjectClassOk then
          if env.getMethodIDOk .readTCP then
            let res := manager.readTCPResult maxLength
            let bytesRead := res.1
            let javaBuffer := fitToLength maxLength.toNat res.2
            if bytesRead > 0 then
              (bytesRead,
                javaBuffer.take bytesRead.toNat ++ buffer.drop bytesRead.toNat,
                [.allocArray maxLength, .allocClass, .callHost .readTCP,
                  .getByteArrayRegion bytesRead, .deleteLocalRef .classRef,
                  .deleteLocalRef .arrayRef])
            else
              (bytesRead, buffer,
                [.allocArray maxLength, .allocClass, .callHost .readTCP,
                  .deleteLocalRef .classRef, .deleteLocalRef .arrayRef])
          else
            (0, buffer, [.allocArray maxLength, .allocClass,
              .deleteLocalRef .classRef, .deleteLocalRef .arrayRef])
        else
          (0, buffer, [.allocArray maxLength, .deleteLocalRef .arrayRef])
      else
        (0, buffer, [])
    | none => (0, buffer, [])
  | _, _ => (0, buffer, [])

/-- `MelonDSAndroidIRHandler::isTCPOpen` (lines 314–336). -/
def MelonDSAndroidIRHandler.isTCPOpen (h : MelonDSAndroidIRHandler) :
    Bool × List JNIEvent :=
  match h.jniEnvHandler, h.irManager with
  | some envHandler, some manager =>
    match envHandler.getCurrentThreadEnv with
    | some env =>
      if env.getObjectClassOk then
        if env.getMethodIDOk .isTCPOpen then
          (manager.isTCPOpenResult,
            [.allocClass, .callHost .isTCPOpen, .deleteLocalRef .classRef])
        else
          (false, [.allocClass, .deleteLocalRef .classRef])
      else
        (false, [])
    | none => (false, [])
  | _, _ => (false, [])

/-- `MelonDSAndroidIRHandler::hasDataAvailable` (lines 338–360). -/
def MelonDSAndroidIRHandler.hasDataAvailable (h : MelonDSAndroidIRHandler) :
    Bool × List JNIEvent :=
  match h.jniEnvHandler, h.irManager with
  | some envHandler, some manager =>
    match envHandler.getCurrentThreadEnv with
    | some env =>
      if env.getObjectClassOk then
        if env.getMethodIDOk .hasDataAvailable then
          (manager.hasDataAvailableResult,
            [.allocClass, .callHost .hasDataAvailable,
              .deleteLocalRef .classRef])
        else
          (false, [.allocClass, .deleteLocalRef .classRef])
      else
        (false, [])
    | none => (false, [])
  | _, _ => (false, [])

/-! ### Shared predicates used by the theorems -/

/-- All eleven operations take their failure branch: each returns its
documented failure sentinel (`false`, `-1`, `0`, plain return), leaves the
caller's buffer unchanged, and performs no boundary-crossing event at all
(in particular, the host object's method is never invoked). -/
def opsFailState (h : MelonDSAndroidIRHandler) : Prop :=
  ∀ (data buffer : List Int) (length maxLength : Int),
    h.openSerial = (false, []) ∧
    h.closeSerial = [] ∧
    h.writeSerial data length = (-1, []) ∧
    h.readSerial buffer maxLength = (0, buffer, []) ∧
    h.isSerialOpen = (false, []) ∧
    h.openTCP = (false, []) ∧
    h.closeTCP = [] ∧
    h.writeTCP data length = (-1, []) ∧
    h.readTCP buffer maxLength = (0, buffer, []) ∧
    h.isTCPOpen = (false, []) ∧
    h.hasDataAvailable = (false, [])

/-- The five boolean operations all return `false`. -/
def boolOpsFalse (h : MelonDSAndroidIRHandler) : Prop :=
  (h.openSerial).1 = false ∧
  (h.isSerialOpen).1 = false ∧
  (h.openTCP).1 = false ∧
  (h.isTCPOpen).1 = false ∧
  (h.hasDataAvailable).1 = false

/-- Both write operations return `-1` and never invoke a host method. -/
def writesFail (h : MelonDSAndroidIRHandler) (data : List Int)
    (length : Int) : Prop :=
  (h.writeSerial data length).1 = -1 ∧
  countHostCalls (h.writeSerial data length).2 = 0 ∧
  (h.writeTCP data length).1 = -1 ∧
  countHostCalls (h.writeTCP data length).2 = 0

/-- Both read operations return `0` and never invoke a host method. -/
def readsFail (h : MelonDSAndroidIRHandler) (buffer : List Int)
    (maxLength : Int) : Prop :=
  (h.readSerial buffer maxLength).1 = 0 ∧
  countHostCalls (h.readSerial buffer maxLength).2.2 = 0 ∧
  (h.readTCP buffer maxLength).1 = 0 ∧
  countHostCalls (h.readTCP buffer maxLength).2.2 = 0

/-- Both read operations leave the caller's buffer unchanged. -/
def readsBufferUnchanged (h : MelonDSAndroidIRHandler) (buffer : List Int)
    (maxLength : Int) : Prop :=
  (h.readSerial buffer maxLength).2.1 = buffer ∧
  (h.readTCP buffer maxLength).2.1 = buffer

/-- The trace is balanced: every local reference allocated on the path is
released exactly once (each kind is allocated at most once per operation,
and is deleted exactly as many times as it was allocated). -/
def refBalanced (t : List JNIEvent) : Prop :=
  countAlloc .classRef t = countDelete .classRef t ∧
  countAlloc .arrayRef t = countDelete .arrayRef t ∧
  countAlloc .classRef t ≤ 1 ∧
  countAlloc .arrayRef t ≤ 1

/-! ### Concrete fixtures for witnesses and counterexamples -/

/-- An environment in which every JNI resolution step succeeds. -/
def allOkEnv : JNIEnv :=
  { getObjectClassOk := true
    newByteArrayOk := true
    getMethodIDOk := fun _ => true }

/-- An environment in which only `GetMethodID` fails. -/
def noMethodEnv : JNIEnv :=
  { getObjectClassOk := true
    newByteArrayOk := true
    getMethodIDOk := fun _ => false }

/-- A concrete host peripheral object with nontrivial results. -/
def testHost : IRManagerHost :=
  { openSerialResult := true
    isSerialOpenResult := true
    openTCPResult := false
    isTCPOpenResult := false
    hasDataAvailableResult := true
    writeSerialResult := fun _ l => l
    writeTCPResult := fun _ _ => 4
    readSerialResult := fun _ => (2, [7, 8, 9])
    readTCPResult := fun _ => (1, [5]) }

/-- A fully functional handler. -/
def okHandler : MelonDSAndroidIRHandler :=
  makeHandler (some { getCurrentThreadEnv := some allOkEnv }) (some testHost)

/-- A handler constructed with a null `jniEnvHandler`. -/
def nullEnvHandler : MelonDSAndroidIRHandler :=
  makeHandler none (some testHost)

/-- A handler whose environment fails every `GetMethodID` lookup. -/
def noMethodHandler : MelonDSAndroidIRHandler :=
  makeHandler (some { getCurrentThreadEnv := some noMethodEnv })
    (some testHost)

/-! ### Claims -/

/-- C2: if `jniEnvHandler` or `irManager` is null, every operation returns
its documented failure sentinel immediately (`false` for the boolean
operations, `-1` for the writes, `0` for the reads, plain return for the
closes) with an empty event trace, so the host object's method is never
invoked. -/
theorem claim2_null_handles_fail_immediately (h : MelonDSAndroidIRHandler)
    (hnull : h.jniEnvHandler = none ∨ h.irManager = none) :
    opsFailState h := by
  obtain ⟨j, m⟩ := h
  intro data buffer length maxLength
  cases j <;> cases m <;>
    simp_all [MelonDSAndroidIRHandler.openSerial,
      MelonDSAndroidIRHandler.closeSerial,
      MelonDSAndroidIRHandler.writeSerial,
      MelonDSAndroidIRHandler.readSerial,
      MelonDSAndroidIRHandler.isSerialOpen,
      MelonDSAndroidIRHandler.openTCP,
      MelonDSAndroidIRHandler.closeTCP,
      MelonDSAndroidIRHandler.writeTCP,
      MelonDSAndroidIRHandler.readTCP,
      MelonDSAndroidIRHandler.isTCPOpen,
      MelonDSAndroidIRHandler.hasDataAvailable]

/-- Witness for C2: a handler built with a null `jniEnvHandler` fails every
operation with an empty trace. -/
theorem claim2_witness : opsFailState nullEnvHandler :=
  claim2_null_handles_fail_immediately nullEnvHandler (Or.inl rfl)

/-- C10: construction never fails: the constructor stores both pointers
unconditionally (the null check in the constructor body only logs), and
since no operation ever assigns the fields, a handler built with a null
pointer takes the failure branch in every operation on every call for its
entire lifetime. -/
theorem claim10_constructor_stores_unconditionally
    (j : Option JniEnvHandler) (m : Option IRManagerHost) :
    ((makeHandler j m).jniEnvHandler = j ∧ (makeHandler j m).irManager = m) ∧
    ((j = none ∨ m = none) → opsFailState (makeHandler j m)) := by
  refine ⟨⟨rfl, rfl⟩, ?_⟩
  intro hnull data buffer length maxLength
  cases j <;> cases m <;>
    simp_all [makeHandler,
      MelonDSAndroidIRHandler.openSerial,
      MelonDSAndroidIRHandler.closeSerial,
      MelonDSAndroidIRHandler.writeSerial,
      MelonDSAndroidIRHandler.readSerial,
      MelonDSAndroidIRHandler.isSerialOpen,
      MelonDSAndroidIRHandler.openTCP,
      MelonDSAndroidIRHandler.closeTCP,
      MelonDSAndroidIRHandler.writeTCP,
      MelonDSAndroidIRHandler.readTCP,
      MelonDSAndroidIRHandler.isTCPOpen,
      MelonDSAndroidIRHandler.hasDataAvailable]

/-- Witness for C10: constructing with a null `jniEnvHandler` and a live
`irManager` stores exactly those values and every operation fails. -/
theorem claim10_witness :
    ((makeHandler none (some testHost)).jniEnvHandler = none ∧
      (makeHandler none (some testHost)).irManager = some testHost) ∧
    opsFailState (makeHandler none (some testHost)) :=
  ⟨(claim10_constructor_stores_unconditionally none (some testHost)).1,
    (claim10_constructor_stores_unconditionally none (some testHost)).2
      (Or.inl rfl)⟩

/-- C1: when every resolution step succeeds (non-null handles, environment
obtained, class and method resolved, transfer array allocated), each
operation returns exactly what the host object's corresponding method
returns: the five boolean operations return the host's boolean, the writes
return the host's int result (the host seeing the marshalled bytes and the
length), and the reads return the host's `bytesRead` count. -/
theorem claim1_success_forwards_host_result
    (h : MelonDSAndroidIRHandler) (eh : JniEnvHandler)
    (mgr : IRManagerHost) (env : JNIEnv)
    (hj : h.jniEnvHandler = some eh) (hm : h.irManager = some mgr)
    (he : eh.getCurrentThreadEnv = some env)
    (hc : env.getObjectClassOk = true)
    (hb : env.newByteArrayOk = true)
    (hmid : ∀ m, env.getMethodIDOk m = true)
    (data buffer : List Int) (length maxLength : Int) :
    (h.openSerial).1 = mgr.openSerialResult ∧
    (h.isSerialOpen).1 = mgr.isSerialOpenResult ∧
    (h.openTCP).1 = mgr.openTCPResult ∧
    (h.isTCPOpen).1 = mgr.isTCPOpenResult ∧
    (h.hasDataAvailable).1 = mgr.hasDataAvailableResult ∧
    (h.writeSerial data length).1 =
      mgr.writeSerialResult (takeInt length data) length ∧
    (h.writeTCP data length).1 =
      mgr.writeTCPResult (takeInt length data) length ∧
    (h.readSerial buffer maxLength).1 = (mgr.readSerialResult maxLength).1 ∧
    (h.readTCP buffer maxLength).1 = (mgr.readTCPResult maxLength).1 := by
  obtain ⟨j, m⟩ := h
  obtain rfl : j = some eh := hj
  obtain rfl : m = some mgr := hm
  simp only [MelonDSAndroidIRHandler.openSerial,
    MelonDSAndroidIRHandler.isSerialOpen,
    MelonDSAndroidIRHandler.openTCP,
    MelonDSAndroidIRHandler.isTCPOpen,
    MelonDSAndroidIRHandler.hasDataAvailable,
    MelonDSAndroidIRHandler.writeSerial,
    MelonDSAndroidIRHandler.writeTCP,
    MelonDSAndroidIRHandler.readSerial,
    MelonDSAndroidIRHandler.readTCP, he, hc, hb, hmid]
  refine ⟨rfl, rfl, rfl, rfl, rfl, rfl, rfl, ?_, ?_⟩ <;>
    split_ifs <;> rfl

/-- Witness for C1: the fully functional fixture handler forwards each host
result. -/
theorem claim1_witness :
    (okHandler.openSerial).1 = testHost.openSerialResult ∧
    (okHandler.isSerialOpen).1 = testHost.isSerialOpenResult ∧
    (okHandler.openTCP).1 = testHost.openTCPResult ∧
    (okHandler.isTCPOpen).1 = testHost.isTCPOpenResult ∧
    (okHandler.hasDataAvailable).1 = testHost.hasDataAvailableResult ∧
    (okHandler.writeSerial [1, 2] 2).1 =
      testHost.writeSerialResult (takeInt 2 [1, 2]) 2 ∧
    (okHandler.writeTCP [1, 2] 2).1 =
      testHost.writeTCPResult (takeInt 2 [1, 2]) 2 ∧
    (okHandler.readSerial [0, 0, 0] 3).1 = (testHost.readSerialResult 3).1 ∧
    (okHandler.readTCP [0, 0, 0] 3).1 = (testHost.readTCPResult 3).1 :=
  claim1_success_forwards_host_result okHandler
    { getCurrentThreadEnv := some allOkEnv } testHost allOkEnv
    rfl rfl rfl rfl rfl (fun _ => rfl) [1, 2] [0, 0, 0] 2 3

/-- C5: the five boolean operations return `false` on any resolution
failure: null handles, a null JNI environment, a failed `GetObjectClass`,
or a failed `GetMethodID` for the operation's own method. -/
theorem claim5_bool_ops_false_on_failure
    (h : MelonDSAndroidIRHandler) (eh : JniEnvHandler) (env : JNIEnv) :
    ((h.jniEnvHandler = none ∨ h.irManager = none) → boolOpsFalse h) ∧
    ((h.jniEnvHandler = some eh ∧ eh.getCurrentThreadEnv = none) →
      boolOpsFalse h) ∧
    ((h.jniEnvHandler = some eh ∧ eh.getCurrentThreadEnv = some env ∧
        env.getObjectClassOk = false) → boolOpsFalse h) ∧
    ((h.jniEnvHandler = some eh ∧ eh.getCurrentThreadEnv = some env ∧
        env.getObjectClassOk = true) →
      (env.getMethodIDOk .openSerial = false → (h.openSerial).1 = false) ∧
      (env.getMethodIDOk .isSerialOpen = false → (h.isSerialOpen).1 = false) ∧
      (env.getMethodIDOk .openTCP = false → (h.openTCP).1 = false) ∧
      (env.getMethodIDOk .isTCPOpen = false → (h.isTCPOpen).1 = false) ∧
      (env.getMethodIDOk .hasDataAvailable = false →
        (h.hasDataAvailable).1 = false)) := by
  obtain ⟨j, m⟩ := h
  refine ⟨?_, ?_, ?_, ?_⟩
  · intro hnull
    cases j <;> cases m <;>
      simp_all [boolOpsFalse, MelonDSAndroidIRHandler.openSerial,
        MelonDSAndroidIRHandler.isSerialOpen, MelonDSAndroidIRHandler.openTCP,
        MelonDSAndroidIRHandler.isTCPOpen,
        MelonDSAndroidIRHandler.hasDataAvailable]
  · rintro ⟨rfl, he⟩
    cases m <;>
      simp_all [boolOpsFalse, MelonDSAndroidIRHandler.openSerial,
        MelonDSAndroidIRHandler.isSerialOpen, MelonDSAndroidIRHandler.openTCP,
        MelonDSAndroidIRHandler.isTCPOpen,
        MelonDSAndroidIRHandler.hasDataAvailable]
  · rintro ⟨rfl, he, hc⟩
    cases m <;>
      simp_all [boolOpsFalse, MelonDSAndroidIRHandler.openSerial,
        MelonDSAndroidIRHandler.isSerialOpen, MelonDSAndroidIRHandler.openTCP,
        MelonDSAndroidIRHandler.isTCPOpen,
        MelonDSAndroidIRHandler.hasDataAvailable]
  · rintro ⟨rfl, he, hc⟩
    cases m <;>
      refine ⟨?_, ?_, ?_, ?_, ?_⟩ <;> intro hmid <;>
        simp_all [MelonDSAndroidIRHandler.openSerial,
          MelonDSAndroidIRHandler.isSerialOpen,
          MelonDSAndroidIRHandler.openTCP,
          MelonDSAndroidIRHandler.isTCPOpen,
          MelonDSAndroidIRHandler.hasDataAvailable]

/-- Witness for C5: the handler whose environment fails every `GetMethodID`
lookup returns `false` from all five boolean operations. -/
theorem claim5_witness :
    (noMethodHandler.openSerial).1 = false ∧
    (noMethodHandler.isSerialOpen).1 = false ∧
    (noMethodHandler.openTCP).1 = false ∧
    (noMethodHandler.isTCPOpen).1 = false ∧
    (noMethodHandler.hasDataAvailable).1 = false := by
  have h4 := (claim5_bool_ops_false_on_failure noMethodHandler
    { getCurrentThreadEnv := some noMethodEnv } noMethodEnv).2.2.2
    ⟨rfl, rfl, rfl⟩
  exact ⟨h4.1 rfl, h4.2.1 rfl, h4.2.2.1 rfl, h4.2.2.2.1 rfl, h4.2.2.2.2 rfl⟩

/-- C3: `writeSerial` and `writeTCP` return `-1` on every resolution
failure — null handles, null JNI environment, failed `NewByteArray`, failed
`GetObjectClass`, or failed `GetMethodID` for the write method — and in
none of those cases is the host write method invoked. -/
theorem claim3_writes_fail_with_minus_one
    (h : MelonDSAndroidIRHandler) (eh : JniEnvHandler) (env : JNIEnv)
    (data : List Int) (length : Int) :
    ((h.jniEnvHandler = none ∨ h.irManager = none) →
      writesFail h data length) ∧
    ((h.jniEnvHandler = some eh ∧ eh.getCurrentThreadEnv = none) →
      writesFail h data length) ∧
    ((h.jniEnvHandler = some eh ∧ eh.getCurrentThreadEnv = some env ∧
        env.newByteArrayOk = false) → writesFail h data length) ∧
    ((h.jniEnvHandler = some eh ∧ eh.getCurrentThreadEnv = some env ∧
        env.newByteArrayOk = true ∧ env.getObjectClassOk = false) →
      writesFail h data length) ∧
    ((h.jniEnvHandler = some eh ∧ eh.getCurrentThreadEnv = some env ∧
        env.newByteArrayOk = true ∧ env.getObjectClassOk = true) →
      (env.getMethodIDOk .writeSerial = false →
        (h.writeSerial data length).1 = -1 ∧
        countHostCalls (h.writeSerial data length).2 = 0) ∧
      (env.getMethodIDOk .writeTCP = false →
        (h.writeTCP data length).1 = -1 ∧
        countHostCalls (h.writeTCP data length).2 = 0)) := by
  obtain ⟨j, m⟩ := h
  refine ⟨?_, ?_, ?_, ?_, ?_⟩
  · intro hnull
    cases j <;> cases m <;>
      simp_all [writesFail, countHostCalls, isHostCallEvent,
        MelonDSAndroidIRHandler.writeSerial, MelonDSAndroidIRHandler.writeTCP]
  · rintro ⟨rfl, he⟩
    cases m <;>
      simp_all [writesFail, countHostCalls, isHostCallEvent,
        MelonDSAndroidIRHandler.writeSerial, MelonDSAndroidIRHandler.writeTCP]
  · rintro ⟨rfl, he, hb⟩
    cases m <;>
      simp_all [writesFail, countHostCalls, isHostCallEvent,
        MelonDSAndroidIRHandler.writeSerial, MelonDSAndroidIRHandler.writeTCP]
  · rintro ⟨rfl, he, hb, hc⟩
    cases m <;>
      simp_all [writesFail, countHostCalls, isHostCallEvent,
        MelonDSAndroidIRHandler.writeSerial, MelonDSAndroidIRHandler.writeTCP]
  · rintro ⟨rfl, he, hb, hc⟩
    cases m <;> refine ⟨?_, ?_⟩ <;> intro hmid <;>
      simp_all [countHostCalls, isHostCallEvent,
        MelonDSAndroidIRHandler.writeSerial, MelonDSAndroidIRHandler.writeTCP]

/-- Witness for C3: with every `GetMethodID` failing, both writes return
`-1` and no host call happens. -/
theorem claim3_witness :
    (noMethodHandler.writeSerial [9] 1).1 = -1 ∧
    countHostCalls (noMethodHandler.writeSerial [9] 1).2 = 0 ∧
    (noMethodHandler.writeTCP [9] 1).1 = -1 ∧
    countHostCalls (noMethodHandler.writeTCP [9] 1).2 = 0 := by
  have h5 := (claim3_writes_fail_with_minus_one noMethodHandler
    { getCurrentThreadEnv := some noMethodEnv } noMethodEnv [9] 1).2.2.2.2
    ⟨rfl, rfl, rfl, rfl⟩
  exact ⟨(h5.1 rfl).1, (h5.1 rfl).2, (h5.2 rfl).1, (h5.2 rfl).2⟩

/-- C4: `readSerial` and `readTCP` return `0` on every resolution failure —
null handles, null JNI environment, failed `NewByteArray`, failed
`GetObjectClass`, or failed `GetMethodID` for the read method — and in none
of those cases is the host read method invoked. -/
theorem claim4_reads_fail_with_zero
    (h : MelonDSAndroidIRHandler) (eh : JniEnvHandler) (env : JNIEnv)
    (buffer : List Int) (maxLength : Int) :
    ((h.jniEnvHandler = none ∨ h.irManager = none) →
      readsFail h buffer maxLength) ∧
    ((h.jniEnvHandler = some eh ∧ eh.getCurrentThreadEnv = none) →
      readsFail h buffer maxLength) ∧
    ((h.jniEnvHandler = some eh ∧ eh.getCurrentThreadEnv = some env ∧
        env.newByteArrayOk = false) → readsFail h buffer maxLength) ∧
    ((h.jniEnvHandler = some eh ∧ eh.getCurrentThreadEnv = some env ∧
        env.newByteArrayOk = true ∧ env.getObjectClassOk = false) →
      readsFail h buffer maxLength) ∧
    ((h.jniEnvHandler = some eh ∧ eh.getCurrentThreadEnv = some env ∧
        env.newByteArrayOk = true ∧ env.getObjectClassOk = true) →
      (env.getMethodIDOk .readSerial = false →
        (h.readSerial buffer maxLength).1 = 0 ∧
        countHostCalls (h.readSerial buffer maxLength).2.2 = 0) ∧
      (env.getMethodIDOk .readTCP = false →
        (h.readTCP buffer maxLength).1 = 0 ∧
        countHostCalls (h.readTCP buffer maxLength).2.2 = 0)) := by
  obtain ⟨j, m⟩ := h
  refine ⟨?_, ?_, ?_, ?_, ?_⟩
  · intro hnull
    cases j <;> cases m <;>
      simp_all [readsFail, countHostCalls, isHostCallEvent,
        MelonDSAndroidIRHandler.readSerial, MelonDSAndroidIRHandler.readTCP]
  · rintro ⟨rfl, he⟩
    cases m <;>
      simp_all [readsFail, countHostCalls, isHostCallEvent,
        MelonDSAndroidIRHandler.readSerial, MelonDSAndroidIRHandler.readTCP]
  · rintro ⟨rfl, he, hb⟩
    cases m <;>
      simp_all [readsFail, countHostCalls, isHostCallEvent,
        MelonDSAndroidIRHandler.readSerial, MelonDSAndroidIRHandler.readTCP]
  · rintro ⟨rfl, he, hb, hc⟩
    cases m <;>
      simp_all [readsFail, countHostCalls, isHostCallEvent,
        MelonDSAndroidIRHandler.readSerial, MelonDSAndroidIRHandler.readTCP]
  · rintro ⟨rfl, he, hb, hc⟩
    cases m <;> refine ⟨?_, ?_⟩ <;> intro hmid <;>
      simp_all [countHostCalls, isHostCallEvent,
        MelonDSAndroidIRHandler.readSerial, MelonDSAndroidIRHandler.readTCP]

/-- Witness for C4: with every `GetMethodID` failing, both reads return `0`
and no host call happens. -/
theorem claim4_witness :
    (noMethodHandler.readSerial [0, 0] 2).1 = 0 ∧
    countHostCalls (noMethodHandler.readSerial [0, 0] 2).2.2 = 0 ∧
    (noMethodHandler.readTCP [0, 0] 2).1 = 0 ∧
    countHostCalls (noMethodHandler.readTCP [0, 0] 2).2.2 = 0 := by
  have h5 := (claim4_reads_fail_with_zero noMethodHandler
    { getCurrentThreadEnv := some noMethodEnv } noMethodEnv [0, 0] 2).2.2.2.2
    ⟨rfl, rfl, rfl, rfl⟩
  exact ⟨(h5.1 rfl).1, (h5.1 rfl).2, (h5.2 rfl).1, (h5.2 rfl).2⟩

/-! ### Local reference balance, one lemma per operation -/

lemma openSerial_refBalanced (h : MelonDSAndroidIRHandler) :
    refBalanced (h.openSerial).2 := by
  obtain ⟨j, m⟩ := h
  rcases j with _ | ⟨_ | env⟩ <;> rcases m with _ | mgr <;>
    simp only [MelonDSAndroidIRHandler.openSerial] <;>
    (try split_ifs) <;>
    simp [refBalanced, countAlloc, countDelete, isAllocEvent, isDeleteEvent]

lemma closeSerial_refBalanced (h : MelonDSAndroidIRHandler) :
    refBalanced h.closeSerial := by
  obtain ⟨j, m⟩ := h
  rcases j with _ | ⟨_ | env⟩ <;> rcases m with _ | mgr <;>
    simp only [MelonDSAndroidIRHandler.closeSerial] <;>
    (try split_ifs) <;>
    simp [refBalanced, countAlloc, countDelete, isAllocEvent, isDeleteEvent]

lemma writeSerial_refBalanced (h : MelonDSAndroidIRHandler)
    (data : List Int) (length : Int) :
    refBalanced (h.writeSerial data length).2 := by
  obtain ⟨j, m⟩ := h
  rcases j with _ | ⟨_ | env⟩ <;> rcases m with _ | mgr <;>
    simp only [MelonDSAndroidIRHandler.writeSerial] <;>
    (try split_ifs) <;>
    simp [refBalanced, countAlloc, countDelete, isAllocEvent, isDeleteEvent]

lemma readSerial_refBalanced (h : MelonDSAndroidIRHandler)
    (buffer : List Int) (maxLength : Int) :
    refBalanced (h.readSerial buffer maxLength).2.2 := by
  obtain ⟨j, m⟩ := h
  rcases j with _ | ⟨_ | env⟩ <;> rcases m with _ | mgr <;>
    simp only [MelonDSAndroidIRHandler.readSerial] <;>
    (try split_ifs) <;>
    simp [refBalanced, countAlloc, countDelete, isAllocEvent, isDeleteEvent]

lemma isSerialOpen_refBalanced (h : MelonDSAndroidIRHandler) :
    refBalanced (h.isSerialOpen).2 := by
  obtain ⟨j, m⟩ := h
  rcases j with _ | ⟨_ | env⟩ <;> rcases m with _ | mgr <;>
    simp only [MelonDSAndroidIRHandler.isSerialOpen] <;>
    (try split_ifs) <;>
    simp [refBalanced, countAlloc, countDelete, isAllocEvent, isDeleteEvent]

lemma openTCP_refBalanced (h : MelonDSAndroidIRHandler) :
    refBalanced (h.openTCP).2 := by
  obtain ⟨j, m⟩ := h
  rcases j with _ | ⟨_ | env⟩ <;> rcases m with _ | mgr <;>
    simp only [MelonDSAndroidIRHandler.openTCP] <;>
    (try split_ifs) <;>
    simp [refBalanced, countAlloc, countDelete, isAllocEvent, isDeleteEvent]

lemma closeTCP_refBalanced (h : MelonDSAndroidIRHandler) :
    refBalanced h.closeTCP := by
  obtain ⟨j, m⟩ := h
  rcases j with _ | ⟨_ | env⟩ <;> rcases m with _ | mgr <;>
    simp only [MelonDSAndroidIRHandler.closeTCP] <;>
    (try split_ifs) <;>
    simp [refBalanced, countAlloc, countDelete, isAllocEvent, isDeleteEvent]

lemma writeTCP_refBalanced (h : MelonDSAndroidIRHandler)
    (data : List Int) (length : Int) :
    refBalanced (h.writeTCP data length).2 := by
  obtain ⟨j, m⟩ := h
  rcases j with _ | ⟨_ | env⟩ <;> rcases m with _ | mgr <;>
    simp only [MelonDSAndroidIRHandler.writeTCP] <;>
    (try split_ifs) <;>
    simp [refBalanced, countAlloc, countDelete, isAllocEvent, isDeleteEvent]

lemma readTCP_refBalanced (h : MelonDSAndroidIRHandler)
    (buffer : List Int) (maxLength : Int) :
    refBalanced (h.readTCP buffer maxLength).2.2 := by
  obtain ⟨j, m⟩ := h
  rcases j with _ | ⟨_ | env⟩ <;> rcases m with _ | mgr <;>
    simp only [MelonDSAndroidIRHandler.readTCP] <;>
    (try split_ifs) <;>
    simp [refBalanced, countAlloc, countDelete, isAllocEvent, isDeleteEvent]

lemma isTCPOpen_refBalanced (h : MelonDSAndroidIRHandler) :
    refBalanced (h.isTCPOpen).2 := by
  obtain ⟨j, m⟩ := h
  rcases j with _ | ⟨_ | env⟩ <;> rcases m with _ | mgr <;>
    simp only [MelonDSAndroidIRHandler.isTCPOpen] <;>
    (try split_ifs) <;>
    simp [refBalanced, countAlloc, countDelete, isAllocEvent, isDeleteEvent]

lemma hasDataAvailable_refBalanced (h : MelonDSAndroidIRHandler) :
    refBalanced (h.hasDataAvailable).2 := by
  obtain ⟨j, m⟩ := h
  rcases j with _ | ⟨_ | env⟩ <;> rcases m with _ | mgr <;>
    simp only [MelonDSAndroidIRHandler.hasDataAvailable] <;>
    (try split_ifs) <;>
    simp [refBalanced, countAlloc, countDelete, isAllocEvent, isDeleteEvent]

/-- C6: every transient cross-boundary allocation (the local class
reference from `GetObjectClass` and the byte array from `NewByteArray`) is
released exactly once via `DeleteLocalRef` before the operation returns, on
every path of every operation: each kind of local reference is allocated at
most once, and the number of `DeleteLocalRef` events for it equals the
number of its allocations. -/
theorem claim6_local_refs_balanced (h : MelonDSAndroidIRHandler)
    (data buffer : List Int) (length maxLength : Int) :
    refBalanced (h.openSerial).2 ∧
    refBalanced h.closeSerial ∧
    refBalanced (h.writeSerial data length).2 ∧
    refBalanced (h.readSerial buffer maxLength).2.2 ∧
    refBalanced (h.isSerialOpen).2 ∧
    refBalanced (h.openTCP).2 ∧
    refBalanced h.closeTCP ∧
    refBalanced (h.writeTCP data length).2 ∧
    refBalanced (h.readTCP buffer maxLength).2.2 ∧
    refBalanced (h.isTCPOpen).2 ∧
    refBalanced (h.hasDataAvailable).2 :=
  ⟨openSerial_refBalanced h, closeSerial_refBalanced h,
    writeSerial_refBalanced h data length,
    readSerial_refBalanced h buffer maxLength,
    isSerialOpen_refBalanced h, openTCP_refBalanced h,
    closeTCP_refBalanced h, writeTCP_refBalanced h data length,
    readTCP_refBalanced h buffer maxLength,
    isTCPOpen_refBalanced h, hasDataAvailable_refBalanced h⟩

/-! ### Marshalling behaviour -/

lemma openSerial_no_marshal (h : MelonDSAndroidIRHandler) :
    countMarshal (h.openSerial).2 = 0 := by
  obtain ⟨j, m⟩ := h
  rcases j with _ | ⟨_ | env⟩ <;> rcases m with _ | mgr <;>
    simp only [MelonDSAndroidIRHandler.openSerial] <;>
    (try split_ifs) <;> simp [countMarshal, isMarshalEvent]

lemma closeSerial_no_marshal (h : MelonDSAndroidIRHandler) :
    countMarshal h.closeSerial = 0 := by
  obtain ⟨j, m⟩ := h
  rcases j with _ | ⟨_ | env⟩ <;> rcases m with _ | mgr <;>
    simp only [MelonDSAndroidIRHandler.closeSerial] <;>
    (try split_ifs) <;> simp [countMarshal, isMarshalEvent]

lemma isSerialOpen_no_marshal (h : MelonDSAndroidIRHandler) :
    countMarshal (h.isSerialOpen).2 = 0 := by
  obtain ⟨j, m⟩ := h
  rcases j with _ | ⟨_ | env⟩ <;> rcases m with _ | mgr <;>
    simp only [MelonDSAndroidIRHandler.isSerialOpen] <;>
    (try split_ifs) <;> simp [countMarshal, isMarshalEvent]

lemma openTCP_no_marshal (h : MelonDSAndroidIRHandler) :
    countMarshal (h.openTCP).2 = 0 := by
  obtain ⟨j, m⟩ := h
  rcases j with _ | ⟨_ | env⟩ <;> rcases m with _ | mgr <;>
    simp only [MelonDSAndroidIRHandler.openTCP] <;>
    (try split_ifs) <;> simp [countMarshal, isMarshalEvent]

lemma closeTCP_no_marshal (h : MelonDSAndroidIRHandler) :
    countMarshal h.closeTCP = 0 := by
  obtain ⟨j, m⟩ := h
  rcases j with _ | ⟨_ | env⟩ <;> rcases m with _ | mgr <;>
    simp only [MelonDSAndroidIRHandler.closeTCP] <;>
    (try split_ifs) <;> simp [countMarshal, isMarshalEvent]

lemma isTCPOpen_no_marshal (h : MelonDSAndroidIRHandler) :
    countMarshal (h.isTCPOpen).2 = 0 := by
  obtain ⟨j, m⟩ := h
  rcases j with _ | ⟨_ | env⟩ <;> rcases m with _ | mgr <;>
    simp only [MelonDSAndroidIRHandler.isTCPOpen] <;>
    (try split_ifs) <;> simp [countMarshal, isMarshalEvent]

lemma hasDataAvailable_no_marshal (h : MelonDSAndroidIRHandler) :
    countMarshal (h.hasDataAvailable).2 = 0 := by
  obtain ⟨j, m⟩ := h
  rcases j with _ | ⟨_ | env⟩ <;> rcases m with _ | mgr <;>
    simp only [MelonDSAndroidIRHandler.hasDataAvailable] <;>
    (try split_ifs) <;> simp [countMarshal, isMarshalEvent]

/-- Counterexample to C7: on a fully functional handler, `openSerial`
invokes the host method (one host call in its trace) yet performs no
byte-buffer transfer at all — so it is not the case that every operation's
host call is accompanied by a byte-buffer transfer. -/
theorem claim7_counterexample :
    countHostCalls (okHandler.openSerial).2 = 1 ∧
    countMarshal (okHandler.openSerial).2 = 0 := by
  decide

/-- C7 as amended: only the four read/write operations marshal a byte
buffer across the boundary.  Whenever the transfer array is allocated, the
writes copy the caller's bytes in via `SetByteArrayRegion` before any
further step; the reads copy bytes out via `GetByteArrayRegion` after a
successful host call that reports `bytesRead > 0`.  The other seven
operations resolve a method handle and invoke the host with no byte-buffer
transfer on any path. -/
theorem claim7_amended_only_reads_writes_marshal
    (h : MelonDSAndroidIRHandler) (eh : JniEnvHandler)
    (mgr : IRManagerHost) (env : JNIEnv)
    (data buffer : List Int) (length maxLength : Int) :
    (countMarshal (h.openSerial).2 = 0 ∧
      countMarshal h.closeSerial = 0 ∧
      countMarshal (h.isSerialOpen).2 = 0 ∧
      countMarshal (h.openTCP).2 = 0 ∧
      countMarshal h.closeTCP = 0 ∧
      countMarshal (h.isTCPOpen).2 = 0 ∧
      countMarshal (h.hasDataAvailable).2 = 0) ∧
    (h.jniEnvHandler = some eh → h.irManager = some mgr →
      eh.getCurrentThreadEnv = some env → env.newByteArrayOk = true →
      (JNIEvent.setByteArrayRegion (takeInt length data) ∈
          (h.writeSerial data length).2 ∧
        JNIEvent.setByteArrayRegion (takeInt length data) ∈
          (h.writeTCP data length).2) ∧
      (env.getObjectClassOk = true → env.getMethodIDOk .readSerial = true →
        0 < (mgr.readSerialResult maxLength).1 →
        JNIEvent.getByteArrayRegion (mgr.readSerialResult maxLength).1 ∈
          (h.readSerial buffer maxLength).2.2) ∧
      (env.getObjectClassOk = true → env.getMethodIDOk .readTCP = true →
        0 < (mgr.readTCPResult maxLength).1 →
        JNIEvent.getByteArrayRegion (mgr.readTCPResult maxLength).1 ∈
          (h.readTCP buffer maxLength).2.2)) := by
  refine ⟨⟨openSerial_no_marshal h, closeSerial_no_marshal h,
    isSerialOpen_no_marshal h, openTCP_no_marshal h, closeTCP_no_marshal h,
    isTCPOpen_no_marshal h, hasDataAvailable_no_marshal h⟩, ?_⟩
  obtain ⟨j, m⟩ := h
  rintro (rfl : j = some eh) (rfl : m = some mgr) he hb
  refine ⟨⟨?_, ?_⟩, ?_, ?_⟩
  · simp only [MelonDSAndroidIRHandler.writeSerial, he, hb]
    split_ifs <;> simp
  · simp only [MelonDSAndroidIRHandler.writeTCP, he, hb]
    split_ifs <;> simp
  · intro hc hmid hpos
    simp only [MelonDSAndroidIRHandler.readSerial, he, hb, hc, hmid]
    simp [hpos]
  · intro hc hmid hpos
    simp only [MelonDSAndroidIRHandler.readTCP, he, hb, hc, hmid]
    simp [hpos]

/-- Witness for the amended C7: on the fixture handler the writes copy the
input bytes in and the reads copy the host-reported bytes out, while the
seven bufferless operations remain marshal-free. -/
theorem claim7_witness :
    (countMarshal (okHandler.openSerial).2 = 0 ∧
      countMarshal okHandler.closeSerial = 0 ∧
      countMarshal (okHandler.isSerialOpen).2 = 0 ∧
      countMarshal (okHandler.openTCP).2 = 0 ∧
      countMarshal okHandler.closeTCP = 0 ∧
      countMarshal (okHandler.isTCPOpen).2 = 0 ∧
      countMarshal (okHandler.hasDataAvailable).2 = 0) ∧
    JNIEvent.setByteArrayRegion (takeInt 2 [1, 2]) ∈
      (okHandler.writeSerial [1, 2] 2).2 ∧
    JNIEvent.setByteArrayRegion (takeInt 2 [1, 2]) ∈
      (okHandler.writeTCP [1, 2] 2).2 ∧
    JNIEvent.getByteArrayRegion (testHost.readSerialResult 3).1 ∈
      (okHandler.readSerial [0, 0, 0] 3).2.2 ∧
    JNIEvent.getByteArrayRegion (testHost.readTCPResult 3).1 ∈
      (okHandler.readTCP [0, 0, 0] 3).2.2 := by
  have ha := claim7_amended_only_reads_writes_marshal okHandler
    { getCurrentThreadEnv := some allOkEnv } testHost allOkEnv
    [1, 2] [0, 0, 0] 2 3
  have hb := ha.2 rfl rfl rfl rfl
  exact ⟨ha.1, hb.1.1, hb.1.2, hb.2.1 rfl rfl (by decide),
    hb.2.2 rfl rfl (by decide)⟩

/-- C8: `readSerial` and `readTCP` write into the caller's buffer only when
the host read method returns a strictly positive `bytesRead`, and then the
new buffer is exactly `bytesRead` bytes copied from the transfer array at
offset 0 followed by the untouched tail of the old buffer; when the host
returns zero or a negative value, or when any resolution step fails, the
caller's buffer is left completely unchanged. -/
theorem claim8_reads_buffer_frame_effect
    (h : MelonDSAndroidIRHandler) (eh : JniEnvHandler)
    (mgr : IRManagerHost) (env : JNIEnv)
    (buffer : List Int) (maxLength : Int) :
    ((h.jniEnvHandler = none ∨ h.irManager = none) →
      readsBufferUnchanged h buffer maxLength) ∧
    ((h.jniEnvHandler = some eh ∧ eh.getCurrentThreadEnv = none) →
      readsBufferUnchanged h buffer maxLength) ∧
    ((h.jniEnvHandler = some eh ∧ eh.getCurrentThreadEnv = some env ∧
        env.newByteArrayOk = false) →
      readsBufferUnchanged h buffer maxLength) ∧
    ((h.jniEnvHandler = some eh ∧ eh.getCurrentThreadEnv = some env ∧
        env.newByteArrayOk = true ∧ env.getObjectClassOk = false) →
      readsBufferUnchanged h buffer maxLength) ∧
    ((h.jniEnvHandler = some eh ∧ h.irManager = some mgr ∧
        eh.getCurrentThreadEnv = some env ∧ env.newByteArrayOk = true ∧
        env.getObjectClassOk = true) →
      (env.getMethodIDOk .readSerial = false →
        (h.readSerial buffer maxLength).2.1 = buffer) ∧
      (env.getMethodIDOk .readSerial = true →
        ((mgr.readSerialResult maxLength).1 ≤ 0 →
          (h.readSerial buffer maxLength).2.1 = buffer) ∧
        (0 < (mgr.readSerialResult maxLength).1 →
          (h.readSerial buffer maxLength).2.1 =
            (fitToLength maxLength.toNat
                (mgr.readSerialResult maxLength).2).take
              (mgr.readSerialResult maxLength).1.toNat ++
            buffer.drop (mgr.readSerialResult maxLength).1.toNat)) ∧
      (env.getMethodIDOk .readTCP = false →
        (h.readTCP buffer maxLength).2.1 = buffer) ∧
      (env.getMethodIDOk .readTCP = true →
        ((mgr.readTCPResult maxLength).1 ≤ 0 →
          (h.readTCP buffer maxLength).2.1 = buffer) ∧
        (0 < (mgr.readTCPResult maxLength).1 →
          (h.readTCP buffer maxLength).2.1 =
            (fitToLength maxLength.toNat
                (mgr.readTCPResult maxLength).2).take
              (mgr.readTCPResult maxLength).1.toNat ++
            buffer.drop (mgr.readTCPResult maxLength).1.toNat))) := by
  obtain ⟨j, m⟩ := h
  refine ⟨?_, ?_, ?_, ?_, ?_⟩
  · intro hnull
    cases j <;> cases m <;>
      simp_all [readsBufferUnchanged,
        MelonDSAndroidIRHandler.readSerial, MelonDSAndroidIRHandler.readTCP]
  · rintro ⟨rfl, he⟩
    cases m <;>
      simp_all [readsBufferUnchanged,
        MelonDSAndroidIRHandler.readSerial, MelonDSAndroidIRHandler.readTCP]
  · rintro ⟨rfl, he, hb⟩
    cases m <;>
      simp_all [readsBufferUnchanged,
        MelonDSAndroidIRHandler.readSerial, MelonDSAndroidIRHandler.readTCP]
  · rintro ⟨rfl, he, hb, hc⟩
    cases m <;>
      simp_all [readsBufferUnchanged,
        MelonDSAndroidIRHandler.readSerial, MelonDSAndroidIRHandler.readTCP]
  · rintro ⟨rfl, rfl, he, hb, hc⟩
    refine ⟨?_, ?_, ?_, ?_⟩
    · intro hmid
      simp [MelonDSAndroidIRHandler.readSerial, he, hb, hc, hmid]
    · intro hmid
      refine ⟨?_, ?_⟩
      · intro hle
        simp only [MelonDSAndroidIRHandler.readSerial, he, hb, hc, hmid,
          if_true]
        split_ifs with hp
        · omega
        · rfl
      · intro hpos
        simp only [MelonDSAndroidIRHandler.readSerial, he, hb, hc, hmid,
          if_true]
        split_ifs with hp
        · rfl
        · omega
    · intro hmid
      simp [MelonDSAndroidIRHandler.readTCP, he, hb, hc, hmid]
    · intro hmid
      refine ⟨?_, ?_⟩
      · intro hle
        simp only [MelonDSAndroidIRHandler.readTCP, he, hb, hc, hmid,
          if_true]
        split_ifs with hp
        · omega
        · rfl
      · intro hpos
        simp only [MelonDSAndroidIRHandler.readTCP, he, hb, hc, hmid,
          if_true]
        split_ifs with hp
        · rfl
        · omega

/-- Witness for C8: on the fixture handler the serial read (host reports 2
bytes) rewrites the first two buffer cells from the transfer array and the
TCP read (host reports 1 byte) rewrites the first cell; a handler with a
null pointer leaves the buffer untouched. -/
theorem claim8_witness :
    (okHandler.readSerial [0, 0, 0] 3).2.1 =
      (fitToLength (Int.toNat 3) (testHost.readSerialResult 3).2).take
        (Int.toNat (testHost.readSerialResult 3).1) ++
      List.drop (Int.toNat (testHost.readSerialResult 3).1) [0, 0, 0] ∧
    (okHandler.readTCP [0, 0, 0] 3).2.1 =
      (fitToLength (Int.toNat 3) (testHost.readTCPResult 3).2).take
        (Int.toNat (testHost.readTCPResult 3).1) ++
      List.drop (Int.toNat (testHost.readTCPResult 3).1) [0, 0, 0] ∧
    readsBufferUnchanged nullEnvHandler [0, 0, 0] 3 := by
  have ha := claim8_reads_buffer_frame_effect okHandler
    { getCurrentThreadEnv := some allOkEnv } testHost allOkEnv [0, 0, 0] 3
  have hz := claim8_reads_buffer_frame_effect nullEnvHandler
    { getCurrentThreadEnv := some allOkEnv } testHost allOkEnv [0, 0, 0] 3
  have hs := ha.2.2.2.2 ⟨rfl, rfl, rfl, rfl, rfl⟩
  exact ⟨(hs.2.1 rfl).2 (by decide), (hs.2.2.2 rfl).2 (by decide),
    hz.1 (Or.inl rfl)⟩

/-- C9: `closeSerial` and `closeTCP` fail silently: under null handles the
trace is empty, under a null environment or a failed `GetObjectClass` the
trace is empty, and under a failed `GetMethodID` no host method is invoked;
in the embedding their result type is only the event trace, mirroring the
`void` return that carries no failure sentinel observable by the caller. -/
theorem claim9_closes_fail_silently
    (h : MelonDSAndroidIRHandler) (eh : JniEnvHandler) (env : JNIEnv) :
    ((h.jniEnvHandler = none ∨ h.irManager = none) →
      h.closeSerial = [] ∧ h.closeTCP = []) ∧
    ((h.jniEnvHandler = some eh ∧ eh.getCurrentThreadEnv = none) →
      h.closeSerial = [] ∧ h.closeTCP = []) ∧
    ((h.jniEnvHandler = some eh ∧ eh.getCurrentThreadEnv = some env ∧
        env.getObjectClassOk = false) →
      h.closeSerial = [] ∧ h.closeTCP = []) ∧
    ((h.jniEnvHandler = some eh ∧ eh.getCurrentThreadEnv = some env ∧
        env.getObjectClassOk = true) →
      (env.getMethodIDOk .closeSerial = false →
        countHostCalls h.closeSerial = 0) ∧
      (env.getMethodIDOk .closeTCP = false →
        countHostCalls h.closeTCP = 0)) := by
  obtain ⟨j, m⟩ := h
  refine ⟨?_, ?_, ?_, ?_⟩
  · intro hnull
    cases j <;> cases m <;>
      simp_all [MelonDSAndroidIRHandler.closeSerial,
        MelonDSAndroidIRHandler.closeTCP]
  · rintro ⟨rfl, he⟩
    cases m <;>
      simp_all [MelonDSAndroidIRHandler.closeSerial,
        MelonDSAndroidIRHandler.closeTCP]
  · rintro ⟨rfl, he, hc⟩
    cases m <;>
      simp_all [MelonDSAndroidIRHandler.closeSerial,
        MelonDSAndroidIRHandler.closeTCP]
  · rintro ⟨rfl, he, hc⟩
    cases m <;> refine ⟨?_, ?_⟩ <;> intro hmid <;>
      simp_all [countHostCalls, isHostCallEvent,
        MelonDSAndroidIRHandler.closeSerial,
        MelonDSAndroidIRHandler.closeTCP]

/-- Witness for C9: on the handler whose `GetMethodID` always fails, both
close operations perform no host call. -/
theorem claim9_witness :
    countHostCalls noMethodHandler.closeSerial = 0 ∧
    countHostCalls noMethodHandler.closeTCP = 0 := by
  have h4 := (claim9_closes_fail_silently noMethodHandler
    { getCurrentThreadEnv := some noMethodEnv } noMethodEnv).2.2.2
    ⟨rfl, rfl, rfl⟩
  exact ⟨h4.1 rfl, h4.2 rfl⟩

end IRBridge
